import Mathlib

/-!
Shallow embedding of the Status Report Scribe front end: the per-card
recording state machine (src/components/ReportCard.tsx), the collection
operations (src/App.tsx), and the request assembly and result mapping of the
remote summarizer call (src/services/geminiService.ts), with the data model
of src/types.ts.
-/

namespace StatusReportScribe

/-- Target output language (src/types.ts: `TargetLanguage = 'en' | 'de'`). -/
inductive TargetLanguage where
  | en
  | de
deriving DecidableEq

/-- Card lifecycle status (src/types.ts: `enum CardStatus`). -/
inductive CardStatus where
  | IDLE
  | RECORDING
  | PROCESSING
  | COMPLETED
  | ERROR
deriving DecidableEq

/-- Attached context file (src/types.ts: `interface ContextFile`); `data` is
the base64 transport encoding of the file content. -/
structure ContextFile where
  name : String
  mimeType : String
  data : String
deriving DecidableEq

/-- One card's full state (src/types.ts: `interface ReportItem`). Optional
TypeScript fields are modelled as `Option`s. -/
structure ReportItem where
  id : String
  speakerName : String
  status : CardStatus
  text : String
  timestamp : Nat
  durationSeconds : Nat
  error : Option String := none
  contextText : Option String := none
  contextFile : Option ContextFile := none
deriving DecidableEq

/-- A `Partial<ReportItem>` as passed to `onUpdate` / `updateItem`
(src/App.tsx). An outer `none` models a key absent from the partial object;
for the optional TypeScript fields, `some none` models a key explicitly set
to `undefined`, which the object spread does overwrite. -/
structure ReportUpdates where
  id : Option String := none
  speakerName : Option String := none
  status : Option CardStatus := none
  text : Option String := none
  timestamp : Option Nat := none
  durationSeconds : Option Nat := none
  error : Option (Option String) := none
  contextText : Option (Option String) := none
  contextFile : Option (Option ContextFile) := none
deriving DecidableEq

/-- Spread-merge of a partial update into an item, as in
`{ ...item, ...updates }` (src/App.tsx, `updateItem`, line 29). -/
def applyUpdates (item : ReportItem) (u : ReportUpdates) : ReportItem where
  id := u.id.getD item.id
  speakerName := u.speakerName.getD item.speakerName
  status := u.status.getD item.status
  text := u.text.getD item.text
  timestamp := u.timestamp.getD item.timestamp
  durationSeconds := u.durationSeconds.getD item.durationSeconds
  error := u.error.getD item.error
  contextText := u.contextText.getD item.contextText
  contextFile := u.contextFile.getD item.contextFile

/-- `updateItem` (src/App.tsx lines 27-31): map over the collection, merging
the updates into the item whose id matches. -/
def updateItem (prev : List ReportItem) (id : String) (u : ReportUpdates) :
    List ReportItem :=
  prev.map fun item => if item.id = id then applyUpdates item u else item

/-- `addNewCard` (src/App.tsx lines 13-25). `newId` stands for the `uuidv4()`
call and `now` for `Date.now()`, both supplied by the environment. -/
def addNewCard (newId : String) (now : Nat) (prev : List ReportItem) :
    List ReportItem :=
  prev ++ [{ id := newId,
             speakerName := "Speaker " ++ toString (prev.length + 1),
             status := CardStatus.IDLE,
             text := "",
             timestamp := now,
             durationSeconds := 0 }]

/-- `deleteItem` (src/App.tsx lines 33-35). -/
def deleteItem (prev : List ReportItem) (id : String) : List ReportItem :=
  prev.filter fun item => item.id ≠ id

/-- Initial-mount effect (src/App.tsx lines 44-50): the collection state
starts empty and `addNewCard` runs when the collection is empty at startup. -/
def startupItems (newId : String) (now : Nat) : List ReportItem :=
  let items : List ReportItem := []
  if items.length = 0 then addNewCard newId now items else items

/-- One part of the multi-part request sent to the remote summarizer
(src/services/geminiService.ts): inline binary data tagged with a MIME type,
or a text part. -/
inductive RequestPart where
  | inlineData (mimeType : String) (data : String)
  | text (s : String)
deriving DecidableEq

/-- Caption pushed right after an attached context file's data
(src/services/geminiService.ts line 48). -/
def fileCaption (name : String) : String :=
  "[SYSTEM] Above is the attached existing context file (" ++ name ++ ")."

/-- Text part wrapping the context text
(src/services/geminiService.ts line 54). -/
def contextCaption (ct : String) : String :=
  "[SYSTEM] EXISTING CONTEXT / CURRENT STATUS:\n\"" ++ ct ++
    "\"\n\n(Do not repeat this information in the output unless it is being corrected/updated)."

/-- JavaScript `String.prototype.trim` as used on the context text
(src/services/geminiService.ts line 52): strips whitespace characters from
both ends of the string. -/
def jsTrim (s : String) : String :=
  String.mk (((s.data.dropWhile Char.isWhitespace).reverse.dropWhile
    Char.isWhitespace).reverse)

/-- Closing instruction, parameterized by the target language
(src/services/geminiService.ts line 68). -/
def closingInstruction (language : TargetLanguage) : String :=
  "Analyze the audio. Extract ONLY new info, changes, or Q&A relative to the context above. Output in "
    ++ (match language with
        | TargetLanguage.en => "English"
        | TargetLanguage.de => "German")
    ++ " bullet points."

/-- Assembly of the ordered `parts` array (src/services/geminiService.ts
lines 38-69): the optional context file (inline data then caption), the
optional context text (pushed only when the string is truthy and its trim is
nonempty, mirroring `contextText && contextText.trim().length > 0`), the
transport-encoded audio, and finally the closing instruction. -/
def buildParts (contextFile : Option ContextFile) (contextText : Option String)
    (mimeType : String) (base64Audio : String) (language : TargetLanguage) :
    List RequestPart :=
  let parts : List RequestPart := []
  let parts := match contextFile with
    | some cf =>
        parts ++ [RequestPart.inlineData cf.mimeType cf.data,
                  RequestPart.text (fileCaption cf.name)]
    | none => parts
  let parts := match contextText with
    | some ct =>
        if ct ≠ "" ∧ 0 < (jsTrim ct).length then
          parts ++ [RequestPart.text (contextCaption ct)]
        else parts
    | none => parts
  let parts := parts ++ [RequestPart.inlineData mimeType base64Audio]
  parts ++ [RequestPart.text (closingInstruction language)]

/-- Localized fallback for an empty model response
(src/services/geminiService.ts line 82). -/
def fallbackText (language : TargetLanguage) : String :=
  match language with
  | TargetLanguage.en => "No new updates detected."
  | TargetLanguage.de => "Keine neuen Updates erkannt."

/-- JavaScript `a || b` on an optional string: yields `b` exactly when `a` is
absent (`undefined`) or the empty string, both falsy. -/
def orElseFalsy (a : Option String) (b : String) : String :=
  match a with
  | some s => if s = "" then b else s
  | none => b

/-- Outcome of the awaited work inside the `try` block of
`generateReportFromAudio`: either the remote call resolves with an optional
response text, or the remote call or the base64 encoding rejects, carrying an
optional failure message. -/
inductive RemoteOutcome where
  | resolved (text : Option String)
  | rejected (message : Option String)
deriving DecidableEq

/-- Result mapping of `generateReportFromAudio`
(src/services/geminiService.ts lines 82-86): an empty or absent response text
falls back to the localized placeholder; a rejection is rethrown with the
failure's own message or the generic fallback `"Failed to process audio."`. -/
def generateReportFromAudio (outcome : RemoteOutcome)
    (language : TargetLanguage) : Except String String :=
  match outcome with
  | RemoteOutcome.resolved t => Except.ok (orElseFalsy t (fallbackText language))
  | RemoteOutcome.rejected m => Except.error (orElseFalsy m "Failed to process audio.")

/-- Events a mounted `ReportCard` can react to
(src/components/ReportCard.tsx). Each constructor corresponds either to a
handler reachable through the controls rendered for the current status, or to
the completion of the card's single in-flight asynchronous pipeline:
`startOk`/`startFail` are the two exits of `startRecording`, `stop` is
`stopRecording` with the current timer value, `procDone` is the settlement of
`handleProcessing` carrying the remote outcome and the language prop, `reset`
is the Error-state reset button, the three edits are the controlled inputs,
and the last three model `handleFileUpload` (success and failure) and
`removeFile`. -/
inductive CardEvent where
  | startOk
  | startFail
  | stop (timer : Nat)
  | procDone (outcome : RemoteOutcome) (language : TargetLanguage)
  | reset
  | editSpeakerName (s : String)
  | editText (s : String)
  | editContextText (s : String)
  | fileUploadOk (f : ContextFile)
  | fileUploadFail
  | removeFile
deriving DecidableEq

/-- Updates issued when the submission pipeline settles
(src/components/ReportCard.tsx, `handleProcessing`, lines 85-98): success
stores the returned text and completes the card; failure stores the thrown
message and moves the card to Error. -/
def handleProcessing (outcome : RemoteOutcome) (language : TargetLanguage) :
    ReportUpdates :=
  match generateReportFromAudio outcome language with
  | Except.ok t => { status := some CardStatus.COMPLETED, text := some t }
  | Except.error msg => { status := some CardStatus.ERROR, error := some (some msg) }

/-- One atomic card action: the resulting item (after the `onUpdate` merge)
paired with the number of submission calls to the remote summarizer the
action triggers. Guards mirror the component (src/components/ReportCard.tsx):
the start button is rendered only while IDLE (line 229), the stop button only
while RECORDING (line 241, and `stopRecording` itself checks the live
recorder state, line 75), the pipeline settlement arrives only while
PROCESSING (the only exits from PROCESSING are the settlement itself), the
Reset button is rendered only while ERROR (line 260), and the summary
textarea only while COMPLETED (line 273); the speaker-name input and the
context controls are rendered in every status. Stopping counts one submission
because `mediaRecorder.stop()` fires `onstop` exactly once, which calls
`handleProcessing` on the concatenated chunks (lines 54-58). -/
def cardStep (item : ReportItem) (e : CardEvent) : ReportItem × Nat :=
  match e with
  | CardEvent.startOk =>
      if item.status = CardStatus.IDLE then
        (applyUpdates item { status := some CardStatus.RECORDING }, 0)
      else (item, 0)
  | CardEvent.startFail =>
      if item.status = CardStatus.IDLE then
        (applyUpdates item
          { status := some CardStatus.ERROR,
            error := some (some "Mic access denied") }, 0)
      else (item, 0)
  | CardEvent.stop timer =>
      if item.status = CardStatus.RECORDING then
        (applyUpdates item
          { status := some CardStatus.PROCESSING,
            durationSeconds := some timer }, 1)
      else (item, 0)
  | CardEvent.procDone outcome language =>
      if item.status = CardStatus.PROCESSING then
        (applyUpdates item (handleProcessing outcome language), 0)
      else (item, 0)
  | CardEvent.reset =>
      if item.status = CardStatus.ERROR then
        (applyUpdates item { status := some CardStatus.IDLE, error := some none }, 0)
      else (item, 0)
  | CardEvent.editSpeakerName s =>
      (applyUpdates item { speakerName := some s }, 0)
  | CardEvent.editText s =>
      if item.status = CardStatus.COMPLETED then
        (applyUpdates item { text := some s }, 0)
      else (item, 0)
  | CardEvent.editContextText s =>
      (applyUpdates item { contextText := some (some s) }, 0)
  | CardEvent.fileUploadOk f =>
      (applyUpdates item { contextFile := some (some f) }, 0)
  | CardEvent.fileUploadFail => (item, 0)
  | CardEvent.removeFile =>
      (applyUpdates item { contextFile := some none }, 0)

/-- Status edges of the state machine of spec §4.1. -/
def allowedEdges : List (CardStatus × CardStatus) :=
  [(CardStatus.IDLE, CardStatus.RECORDING),
   (CardStatus.IDLE, CardStatus.ERROR),
   (CardStatus.RECORDING, CardStatus.PROCESSING),
   (CardStatus.PROCESSING, CardStatus.COMPLETED),
   (CardStatus.PROCESSING, CardStatus.ERROR),
   (CardStatus.ERROR, CardStatus.IDLE),
   (CardStatus.COMPLETED, CardStatus.RECORDING)]

/-- Concrete sample card used to instantiate theorems on closed inputs. -/
def sampleCard (st : CardStatus) : ReportItem :=
  { id := "card-1", speakerName := "Speaker 1", status := st, text := "",
    timestamp := 0, durationSeconds := 0 }

/-- Concrete sample attachment used to instantiate theorems on closed inputs. -/
def sampleFile : ContextFile :=
  { name := "status.txt", mimeType := "text/plain", data := "QQ==" }

/-- Spec-side decomposition of the request: the parts contributed by the
attached context file (its inline data followed by its caption), empty when no
file is attached. -/
def fileSection (contextFile : Option ContextFile) : List RequestPart :=
  match contextFile with
  | some cf => [RequestPart.inlineData cf.mimeType cf.data,
                RequestPart.text (fileCaption cf.name)]
  | none => []

/-- Spec-side decomposition of the request: the part contributed by the
context text, empty when the text is absent, empty, or whitespace-only. -/
def contextSection (contextText : Option String) : List RequestPart :=
  match contextText with
  | some ct =>
      if ct ≠ "" ∧ 0 < (jsTrim ct).length then
        [RequestPart.text (contextCaption ct)]
      else []
  | none => []

/-- Trimming yields the empty string exactly when every character of the
string is whitespace. -/
theorem jsTrim_eq_empty_iff (s : String) :
    jsTrim s = "" ↔ ∀ c ∈ s.data, c.isWhitespace := by
  constructor
  · intro h c hc
    have hdata : ((s.data.dropWhile Char.isWhitespace).reverse.dropWhile
        Char.isWhitespace).reverse = [] := by
      have := congrArg String.data h
      simpa [jsTrim] using this
    rw [List.reverse_eq_nil_iff, List.dropWhile_eq_nil_iff] at hdata
    by_cases hmem : c ∈ s.data.dropWhile Char.isWhitespace
    · exact hdata c (List.mem_reverse.mpr hmem)
    · have hsplit := List.takeWhile_append_dropWhile Char.isWhitespace s.data
      rw [← hsplit] at hc
      rcases List.mem_append.mp hc with htk | hdr
      · exact List.mem_takeWhile_imp htk
      · exact absurd hdr hmem
  · intro h
    have h1 : s.data.dropWhile Char.isWhitespace = [] :=
      List.dropWhile_eq_nil_iff.mpr h
    simp [jsTrim, h1]

/-- A string with a nonempty character list is not the empty string, and its
length is positive. -/
theorem length_pos_of_ne_empty (s : String) (h : s ≠ "") : 0 < s.length := by
  rcases s with ⟨l⟩
  cases l with
  | nil => exact absurd rfl h
  | cons c cs => simp [String.length]

/-- C1: for every card and every event a mounted card can react to, if the
status changes at all it changes along one of the transitions enumerated in
the spec's state machine (Idle→Recording, Idle→Error, Recording→Processing,
Processing→Completed, Processing→Error, Error→Idle, Completed→Recording); no
other status transition is reachable. -/
theorem status_transitions_only_allowed (item : ReportItem) (e : CardEvent)
    (h : (cardStep item e).1.status ≠ item.status) :
    (item.status, (cardStep item e).1.status) ∈ allowedEdges := by
  cases e with
  | startOk =>
      by_cases hs : item.status = CardStatus.IDLE
      · simp [cardStep, hs, applyUpdates, allowedEdges]
      · simp [cardStep, hs] at h
  | startFail =>
      by_cases hs : item.status = CardStatus.IDLE
      · simp [cardStep, hs, applyUpdates, allowedEdges]
      · simp [cardStep, hs] at h
  | stop timer =>
      by_cases hs : item.status = CardStatus.RECORDING
      · simp [cardStep, hs, applyUpdates, allowedEdges]
      · simp [cardStep, hs] at h
  | procDone outcome language =>
      by_cases hs : item.status = CardStatus.PROCESSING
      · cases outcome with
        | resolved t =>
            simp [cardStep, hs, handleProcessing, generateReportFromAudio,
              applyUpdates, allowedEdges]
        | rejected m =>
            simp [cardStep, hs, handleProcessing, generateReportFromAudio,
              applyUpdates, allowedEdges]
      · simp [cardStep, hs] at h
  | reset =>
      by_cases hs : item.status = CardStatus.ERROR
      · simp [cardStep, hs, applyUpdates, allowedEdges]
      · simp [cardStep, hs] at h
  | editSpeakerName s => simp [cardStep, applyUpdates] at h
  | editText s =>
      by_cases hs : item.status = CardStatus.COMPLETED
      · simp [cardStep, hs, applyUpdates] at h
      · simp [cardStep, hs] at h
  | editContextText s => simp [cardStep, applyUpdates] at h
  | fileUploadOk f => simp [cardStep, applyUpdates] at h
  | fileUploadFail => simp [cardStep] at h
  | removeFile => simp [cardStep, applyUpdates] at h

/-- Witness for C1 at a concrete card and event. -/
theorem status_transitions_only_allowed_witness :
    (cardStep (sampleCard CardStatus.IDLE) CardEvent.startOk).1.status ≠
      (sampleCard CardStatus.IDLE).status
    ∧ ((sampleCard CardStatus.IDLE).status,
        (cardStep (sampleCard CardStatus.IDLE) CardEvent.startOk).1.status) ∈
        allowedEdges :=
  ⟨by decide,
   status_transitions_only_allowed (sampleCard CardStatus.IDLE)
     CardEvent.startOk (by decide)⟩

/-- C2: when audio-device acquisition fails during start-recording, the card
ends in Error with error message "Mic access denied", and it does not enter
Recording. -/
theorem start_failure_enters_error (item : ReportItem)
    (h : item.status = CardStatus.IDLE) :
    (cardStep item CardEvent.startFail).1.status = CardStatus.ERROR
    ∧ (cardStep item CardEvent.startFail).1.error = some "Mic access denied"
    ∧ (cardStep item CardEvent.startFail).1.status ≠ CardStatus.RECORDING := by
  simp [cardStep, h, applyUpdates]

/-- Witness for C2 at a concrete card. -/
theorem start_failure_enters_error_witness :
    (sampleCard CardStatus.IDLE).status = CardStatus.IDLE
    ∧ (cardStep (sampleCard CardStatus.IDLE) CardEvent.startFail).1.status =
        CardStatus.ERROR :=
  ⟨by decide,
   (start_failure_enters_error (sampleCard CardStatus.IDLE) (by decide)).1⟩

/-- C3: stopping a recording while the card is Recording moves it to
Processing, stores the elapsed-time counter value as durationSeconds, and
triggers exactly one submission call; in any other status the stop action
leaves the card unchanged and triggers no submission. -/
theorem stop_recording_spec (item : ReportItem) (timer : Nat) :
    (item.status = CardStatus.RECORDING →
      (cardStep item (CardEvent.stop timer)).1.status = CardStatus.PROCESSING
      ∧ (cardStep item (CardEvent.stop timer)).1.durationSeconds = timer
      ∧ (cardStep item (CardEvent.stop timer)).2 = 1)
    ∧ (item.status ≠ CardStatus.RECORDING →
      cardStep item (CardEvent.stop timer) = (item, 0)) := by
  constructor
  · intro h
    simp [cardStep, h, applyUpdates]
  · intro h
    simp [cardStep, h]

/-- Witness for C3 at a concrete recording card. -/
theorem stop_recording_spec_witness :
    (cardStep (sampleCard CardStatus.RECORDING) (CardEvent.stop 5)).1.status =
      CardStatus.PROCESSING
    ∧ (cardStep (sampleCard CardStatus.RECORDING)
        (CardEvent.stop 5)).1.durationSeconds = 5
    ∧ (cardStep (sampleCard CardStatus.RECORDING) (CardEvent.stop 5)).2 = 1 :=
  (stop_recording_spec (sampleCard CardStatus.RECORDING) 5).1 (by decide)

/-- C4: when the submission's remote call resolves, the card completes; an
empty (or absent) response text is replaced by the literal fallback string of
the language selected at submission time — "No new updates detected." for
English, "Keine neuen Updates erkannt." for German — and a nonempty response
text is stored verbatim. -/
theorem resolved_submission_spec (item : ReportItem) (t : Option String)
    (language : TargetLanguage) (h : item.status = CardStatus.PROCESSING) :
    (cardStep item (CardEvent.procDone (RemoteOutcome.resolved t)
        language)).1.status = CardStatus.COMPLETED
    ∧ ((t = none ∨ t = some "") →
        (cardStep item (CardEvent.procDone (RemoteOutcome.resolved t)
          language)).1.text = fallbackText language)
    ∧ (∀ s, t = some s → s ≠ "" →
        (cardStep item (CardEvent.procDone (RemoteOutcome.resolved t)
          language)).1.text = s)
    ∧ fallbackText TargetLanguage.en = "No new updates detected."
    ∧ fallbackText TargetLanguage.de = "Keine neuen Updates erkannt." := by
  refine ⟨?_, ?_, ?_, rfl, rfl⟩
  · simp [cardStep, h, handleProcessing, generateReportFromAudio, applyUpdates]
  · rintro (rfl | rfl) <;>
      simp [cardStep, h, handleProcessing, generateReportFromAudio,
        orElseFalsy, applyUpdates]
  · rintro s rfl hs
    simp [cardStep, h, handleProcessing, generateReportFromAudio,
      orElseFalsy, hs, applyUpdates]

/-- Witness for C4 at a concrete processing card with an empty response. -/
theorem resolved_submission_spec_witness :
    (sampleCard CardStatus.PROCESSING).status = CardStatus.PROCESSING
    ∧ (cardStep (sampleCard CardStatus.PROCESSING)
        (CardEvent.procDone (RemoteOutcome.resolved (some ""))
          TargetLanguage.de)).1.status = CardStatus.COMPLETED :=
  ⟨by decide,
   (resolved_submission_spec (sampleCard CardStatus.PROCESSING) (some "")
     TargetLanguage.de (by decide)).1⟩

/-- C5: when the submission's remote call or encoding rejects, the card moves
from Processing to Error; the stored error message is the failure's own
message when it has a nonempty one, and the generic fallback "Failed to
process audio." when the failure carries no message. -/
theorem rejected_submission_spec (item : ReportItem) (m : Option String)
    (language : TargetLanguage) (h : item.status = CardStatus.PROCESSING) :
    (cardStep item (CardEvent.procDone (RemoteOutcome.rejected m)
        language)).1.status = CardStatus.ERROR
    ∧ (∀ s, m = some s → s ≠ "" →
        (cardStep item (CardEvent.procDone (RemoteOutcome.rejected m)
          language)).1.error = some s)
    ∧ ((m = none ∨ m = some "") →
        (cardStep item (CardEvent.procDone (RemoteOutcome.rejected m)
          language)).1.error = some "Failed to process audio.") := by
  refine ⟨?_, ?_, ?_⟩
  · simp [cardStep, h, handleProcessing, generateReportFromAudio, applyUpdates]
  · rintro s rfl hs
    simp [cardStep, h, handleProcessing, generateReportFromAudio,
      orElseFalsy, hs, applyUpdates]
  · rintro (rfl | rfl) <;>
      simp [cardStep, h, handleProcessing, generateReportFromAudio,
        orElseFalsy, applyUpdates]

/-- Witness for C5 at a concrete processing card with a message-less failure. -/
theorem rejected_submission_spec_witness :
    (sampleCard CardStatus.PROCESSING).status = CardStatus.PROCESSING
    ∧ (cardStep (sampleCard CardStatus.PROCESSING)
        (CardEvent.procDone (RemoteOutcome.rejected none)
          TargetLanguage.en)).1.status = CardStatus.ERROR :=
  ⟨by decide,
   (rejected_submission_spec (sampleCard CardStatus.PROCESSING) none
     TargetLanguage.en (by decide)).1⟩

/-- C6: every request sent to the remote summarizer is the ordered
concatenation of the attached context file's parts (when present), the
context text part (when present), the transport-encoded audio payload, and,
last, the closing instruction string parameterized by the target language. -/
theorem request_parts_ordered (cf : Option ContextFile) (ct : Option String)
    (mimeType base64Audio : String) (language : TargetLanguage) :
    buildParts cf ct mimeType base64Audio language =
      fileSection cf ++ contextSection ct
        ++ [RequestPart.inlineData mimeType base64Audio]
        ++ [RequestPart.text (closingInstruction language)] := by
  cases cf <;> cases ct <;>
    simp only [buildParts, fileSection, contextSection] <;>
    (try split) <;> simp

/-- C7: create-card appends to the end of the ordered collection a new Idle
item named "Speaker N" where N is its 1-based position at creation time, and
one card is created automatically when the collection is empty at startup. -/
theorem create_card_spec (newId : String) (now : Nat)
    (prev : List ReportItem) :
    (addNewCard newId now prev).length = prev.length + 1
    ∧ (addNewCard newId now prev).take prev.length = prev
    ∧ ((addNewCard newId now prev).drop prev.length).map ReportItem.status =
        [CardStatus.IDLE]
    ∧ ((addNewCard newId now prev).drop prev.length).map
        ReportItem.speakerName = ["Speaker " ++ toString (prev.length + 1)]
    ∧ startupItems newId now = addNewCard newId now []
    ∧ (startupItems newId now).map ReportItem.speakerName = ["Speaker 1"] := by
  refine ⟨by simp [addNewCard], ?_, ?_, ?_, rfl, ?_⟩
  · rw [addNewCard, List.take_left]
  · rw [addNewCard, List.drop_left]
    rfl
  · rw [addNewCard, List.drop_left]
    rfl
  · rfl

/-- C8: update-card changes only the item with the matching id and only in
the supplied fields — length and order of the collection are preserved, every
other item is unchanged, every field whose update is absent keeps its value
(so the speaker-name, context-text and summary-text edits never change
status), and the call is a no-op when no item has the given id. -/
theorem update_card_frame (prev : List ReportItem) (id : String)
    (u : ReportUpdates) :
    (updateItem prev id u).length = prev.length
    ∧ (∀ i : Nat, (updateItem prev id u)[i]? =
        (prev[i]?).map fun it => if it.id = id then applyUpdates it u else it)
    ∧ ((∀ it ∈ prev, it.id ≠ id) → updateItem prev id u = prev)
    ∧ (∀ it, u.id = none → (applyUpdates it u).id = it.id)
    ∧ (∀ it, u.speakerName = none →
        (applyUpdates it u).speakerName = it.speakerName)
    ∧ (∀ it, u.status = none → (applyUpdates it u).status = it.status)
    ∧ (∀ it, u.text = none → (applyUpdates it u).text = it.text)
    ∧ (∀ it, u.timestamp = none →
        (applyUpdates it u).timestamp = it.timestamp)
    ∧ (∀ it, u.durationSeconds = none →
        (applyUpdates it u).durationSeconds = it.durationSeconds)
    ∧ (∀ it, u.error = none → (applyUpdates it u).error = it.error)
    ∧ (∀ it, u.contextText = none →
        (applyUpdates it u).contextText = it.contextText)
    ∧ (∀ it, u.contextFile = none →
        (applyUpdates it u).contextFile = it.contextFile)
    ∧ (∀ it s, (applyUpdates it { speakerName := some s }).status = it.status)
    ∧ (∀ it s,
        (applyUpdates it { contextText := some (some s) }).status = it.status)
    ∧ (∀ it s, (applyUpdates it { text := some s }).status = it.status) := by
  refine ⟨by simp [updateItem], ?_, ?_, ?_, ?_, ?_, ?_, ?_, ?_, ?_, ?_, ?_,
    ?_, ?_, ?_⟩
  · intro i
    simp [updateItem, List.getElem?_map]
  · intro hid
    have hpt : ∀ it ∈ prev,
        (if it.id = id then applyUpdates it u else it) = it :=
      fun it hmem => if_neg (hid it hmem)
    calc updateItem prev id u = prev.map fun it => it :=
          List.map_congr_left hpt
      _ = prev := by simp
  all_goals intro it
  all_goals first
    | (intro hnone; simp [applyUpdates, hnone])
    | (intro s; simp [applyUpdates])

/-- Witness for C8 at a concrete collection and update. -/
theorem update_card_frame_witness :
    (updateItem [sampleCard CardStatus.IDLE] "card-1"
      { speakerName := some "Alice" }).length =
      [sampleCard CardStatus.IDLE].length :=
  (update_card_frame [sampleCard CardStatus.IDLE] "card-1"
    { speakerName := some "Alice" }).1

/-- C9: attaching a context file always replaces any previously attached one
(the card holds at most one attachment), and removing the attachment when
none is present leaves the card unchanged and is idempotent — in every card
status. -/
theorem context_file_attach_remove (item : ReportItem)
    (f1 f2 : ContextFile) :
    (cardStep (cardStep item (CardEvent.fileUploadOk f1)).1
        (CardEvent.fileUploadOk f2)).1.contextFile = some f2
    ∧ (cardStep item (CardEvent.fileUploadOk f2)).1.contextFile = some f2
    ∧ (item.contextFile = none →
        (cardStep item CardEvent.removeFile).1 = item)
    ∧ (cardStep (cardStep item CardEvent.removeFile).1
        CardEvent.removeFile).1 = (cardStep item CardEvent.removeFile).1 := by
  refine ⟨by simp [cardStep, applyUpdates], by simp [cardStep, applyUpdates],
    ?_, ?_⟩
  · intro h
    cases item
    simp_all [cardStep, applyUpdates]
  · cases item
    simp [cardStep, applyUpdates]

/-- Witness for C9 at a concrete card with no attachment. -/
theorem context_file_attach_remove_witness :
    (cardStep (sampleCard CardStatus.COMPLETED) CardEvent.removeFile).1 =
      sampleCard CardStatus.COMPLETED :=
  (context_file_attach_remove (sampleCard CardStatus.COMPLETED) sampleFile
    sampleFile).2.2.1 (by decide)

/-- C10: the context-text part is sent if and only if the context text is
present and contains at least one non-whitespace character; a whitespace-only
(or empty) context text produces the very same request as an absent one —
no part at all. -/
theorem context_text_part_condition (cf : Option ContextFile)
    (mimeType base64Audio : String) (language : TargetLanguage)
    (s : String) :
    ((∀ c ∈ s.data, c.isWhitespace) →
      buildParts cf (some s) mimeType base64Audio language =
        buildParts cf none mimeType base64Audio language)
    ∧ ((∃ c ∈ s.data, c.isWhitespace = false) →
      buildParts cf (some s) mimeType base64Audio language =
        fileSection cf ++ [RequestPart.text (contextCaption s),
          RequestPart.inlineData mimeType base64Audio,
          RequestPart.text (closingInstruction language)])
    ∧ buildParts cf none mimeType base64Audio language =
        fileSection cf ++ [RequestPart.inlineData mimeType base64Audio,
          RequestPart.text (closingInstruction language)] := by
  refine ⟨?_, ?_, ?_⟩
  · intro h
    have hcond : ¬(s ≠ "" ∧ 0 < (jsTrim s).length) := by
      rintro ⟨hne, hlen⟩
      rw [(jsTrim_eq_empty_iff s).mpr h] at hlen
      exact absurd hlen (by decide)
    cases cf <;> simp [buildParts, hcond]
  · rintro ⟨c, hc, hws⟩
    have hne : s ≠ "" := by
      intro h0
      have hd : s.data ≠ [] := List.ne_nil_of_mem hc
      rw [h0] at hd
      exact hd rfl
    have hnotall : ¬ ∀ d ∈ s.data, d.isWhitespace := by
      intro hall
      have hct := hall c hc
      rw [hws] at hct
      exact Bool.noConfusion hct
    have htrim : jsTrim s ≠ "" :=
      fun he => hnotall ((jsTrim_eq_empty_iff s).mp he)
    have hlen : 0 < (jsTrim s).length := length_pos_of_ne_empty _ htrim
    cases cf <;> simp [buildParts, fileSection, hne, hlen]
  · cases cf <;> simp [buildParts, fileSection]

/-- Witness for C10 at a concrete whitespace-only context text. -/
theorem context_text_part_condition_witness :
    buildParts none (some " ") "audio/webm" "QQ==" TargetLanguage.en =
      buildParts none none "audio/webm" "QQ==" TargetLanguage.en :=
  (context_text_part_condition none "audio/webm" "QQ=="
    TargetLanguage.en " ").1 (by decide)

end StatusReportScribe
